import Mathlib

/-!
Verification of the fintalk call-center assistant against its specification.

The development shallowly embeds the Python source:

* `src/api/models.py` — the `CardHolder` row (timestamps are modelled as
  naturals; `isoformat` stands for `datetime.isoformat`, an injective
  rendering of a timestamp).
* `src/agent/tools.py` — the three tool functions.  The Django ORM calls
  `CardHolder.objects.get(phone_number=...)` and `save()` are modelled over an
  explicit list of rows; a `get` miss (`DoesNotExist`) is the `none` case.
  The catch-all `except Exception` arms are modelled by wrapper functions
  taking the raised message as an explicit `Option String` fault.
* `src/api/views.py` — the health probe, the streaming agent-query handler,
  and the OpenAI-compatible adapter.
* `src/api/serializers.py` — upload validation, with a faithful model of
  `os.path.splitext`.
-/

/-- Rows of the `cardholders` table (`src/api/models.py`, `CardHolder`).
`id` is the auto primary key; `card_status` is `"active"` or `"blocked"`;
`created_at`/`updated_at` are modelled as natural-number timestamps. -/
structure CardHolder where
  id : Nat
  username : String
  phone_number : String
  credit_card_number : String
  card_status : String
  created_at : Nat
  updated_at : Nat
deriving DecidableEq

/-- Python `s[-4:]`: the last four characters (the whole string if shorter). -/
def pyLast4 (s : String) : String := String.mk (s.data.drop (s.data.length - 4))

/-- Stand-in for `datetime.isoformat`: the canonical rendering of a
model timestamp. -/
def isoformat (t : Nat) : String := toString t

/-- Python `phone_number.startswith('+')`. -/
def startsWithPlus (p : String) : Bool :=
  match p.data with
  | '+' :: _ => true
  | _ => false

/-- `tools.py` lines 117-118 / 174-175: prepend `+` when missing. -/
def normalizePhone (p : String) : String :=
  if startsWithPlus p then p else "+" ++ p

/-- `CardHolder.objects.get(phone_number=phone)`: `some` row, or `none`
for `CardHolder.DoesNotExist`. -/
def getByPhone (store : List CardHolder) (phone : String) : Option CardHolder :=
  store.find? (fun c => c.phone_number == phone)

/-- Django `save()`: write back the row with this primary key. -/
def saveRow (store : List CardHolder) (row : CardHolder) : List CardHolder :=
  store.map (fun c => if c.id == row.id then row else c)

/-- `block_credit_card` (`src/agent/tools.py` lines 115-146), body of the
`try` with the `DoesNotExist` arm; returns the tool message and the
resulting table.  `now` is the value of `timezone.now()`. -/
def blockCreditCard (store : List CardHolder) (now : Nat) (phone_number : String) :
    String × List CardHolder :=
  match getByPhone store (normalizePhone phone_number) with
  | none =>
      ("No cardholder found with phone number: " ++ normalizePhone phone_number, store)
  | some cardholder =>
      if cardholder.card_status == "blocked" then
        ("Credit card for phone number " ++ normalizePhone phone_number ++
           " is already blocked.\n" ++
         "Card ending in: " ++ pyLast4 cardholder.credit_card_number ++ "\n" ++
         "Username: " ++ cardholder.username, store)
      else
        ("Successfully blocked credit card for phone number " ++
           normalizePhone phone_number ++ ".\n" ++
         "Card ending in: " ++ pyLast4 cardholder.credit_card_number ++ "\n" ++
         "Username: " ++ cardholder.username ++ "\n" ++
         "Blocked at: " ++ isoformat now,
         saveRow store { cardholder with card_status := "blocked", updated_at := now })

/-- `enable_credit_card` (`src/agent/tools.py` lines 172-203), body of the
`try` with the `DoesNotExist` arm. -/
def enableCreditCard (store : List CardHolder) (now : Nat) (phone_number : String) :
    String × List CardHolder :=
  match getByPhone store (normalizePhone phone_number) with
  | none =>
      ("No cardholder found with phone number: " ++ normalizePhone phone_number, store)
  | some cardholder =>
      if cardholder.card_status == "active" then
        ("Credit card for phone number " ++ normalizePhone phone_number ++
           " is already active.\n" ++
         "Card ending in: " ++ pyLast4 cardholder.credit_card_number ++ "\n" ++
         "Username: " ++ cardholder.username, store)
      else
        ("Successfully enabled credit card for phone number " ++
           normalizePhone phone_number ++ ".\n" ++
         "Card ending in: " ++ pyLast4 cardholder.credit_card_number ++ "\n" ++
         "Username: " ++ cardholder.username ++ "\n" ++
         "Enabled at: " ++ isoformat now,
         saveRow store { cardholder with card_status := "active", updated_at := now })

/-- The catch-all `except Exception as e` arm of `block_credit_card`
(lines 147-149): a `some e` fault raised by the database layer is swallowed
into an in-band string and the table is untouched. -/
def blockCreditCardExc (fault : Option String) (store : List CardHolder) (now : Nat)
    (phone_number : String) : String × List CardHolder :=
  match fault with
  | some e => ("Error blocking credit card: " ++ e, store)
  | none => blockCreditCard store now phone_number

/-- The catch-all `except Exception as e` arm of `enable_credit_card`
(lines 204-206). -/
def enableCreditCardExc (fault : Option String) (store : List CardHolder) (now : Nat)
    (phone_number : String) : String × List CardHolder :=
  match fault with
  | some e => ("Error enabling credit card: " ++ e, store)
  | none => enableCreditCard store now phone_number

/-- Shape of a retrieved chunk as consumed by `search_documents`
(`node.text`, `node.metadata.get('filename')`, and the already-rendered
three-decimal similarity `node.score:.3f`). -/
structure SourceNode where
  text : String
  filename : Option String
  scoreStr : String
deriving DecidableEq

/-- One numbered block of `search_documents` (lines 76-81). -/
def formatSourceNode (idx : Nat) (n : SourceNode) : String :=
  "[Result " ++ toString idx ++ "]\n" ++
  "Content: " ++ n.text ++ "\n" ++
  "Source: " ++ n.filename.getD "Unknown" ++ "\n" ++
  "Similarity: " ++ n.scoreStr ++ "\n"

/-- `search_documents` (`src/agent/tools.py` lines 47-92).  The whole
retrieval path (vector store, index, query engine) is the external
`retrieve` oracle; an `error e` is an exception raised inside the `try`,
caught at lines 90-92. -/
def searchDocuments (retrieve : String → Except String (List SourceNode))
    (query : String) : String :=
  match retrieve query with
  | .error e => "Error searching documents: " ++ e
  | .ok nodes =>
      if nodes.isEmpty then "No relevant documents found for your query."
      else String.intercalate "\n"
        (nodes.enum.map (fun p => formatSourceNode (p.1 + 1) p.2))

/-- `sub` occurs contiguously inside `s`. -/
def ContainsSub (s sub : String) : Prop := ∃ pre post, s = pre ++ sub ++ post

/-- Fixture row for the concrete witnesses. -/
def wAcct : CardHolder :=
  { id := 1, username := "john_doe", phone_number := "+15550100366",
    credit_card_number := "4532-9812-3412-0366", card_status := "active",
    created_at := 0, updated_at := 5 }

/-- Fixture row with a blocked card. -/
def wAcctBlocked : CardHolder := { wAcct with card_status := "blocked" }

-- health probe ----------------------------------------------------------

/-- Per-service entry of the health document: `{status, message}`. -/
structure ServiceReport where
  status : String
  message : String
deriving DecidableEq

/-- The aggregated health document plus the HTTP status it is served with. -/
structure HealthResponse where
  status : String
  postgresql : ServiceReport
  opensearch : ServiceReport
  aws_bedrock : ServiceReport
  httpStatus : Nat
deriving DecidableEq

/-- The PostgreSQL `try` block of `health_check` (views.py lines 43-59):
`ok` is a successful `SELECT 1` round-trip, `error e` a raised exception. -/
def pgReport : Except String Unit → ServiceReport
  | .ok _ => ⟨"healthy", "Database connection successful"⟩
  | .error e => ⟨"unhealthy", "Database connection failed: " ++ e⟩

/-- The OpenSearch `try` block (lines 62-80); the `ConnectionError` raised
for a missing client handle is one more `error` value. -/
def osReport : Except String Unit → ServiceReport
  | .ok _ => ⟨"healthy", "Vector store connection successful"⟩
  | .error e => ⟨"unhealthy", "Vector store connection failed: " ++ e⟩

/-- The AWS Bedrock `try` block (lines 83-100). -/
def brReport : Except String Unit → ServiceReport
  | .ok _ => ⟨"healthy", "AWS Bedrock client initialized"⟩
  | .error e => ⟨"unhealthy", "AWS Bedrock connection failed: " ++ e⟩

/-- `health_check` (`src/api/views.py` lines 22-107): all three checks run
unconditionally; `all_healthy` accumulates their conjunction. -/
def healthCheck (pg osearch bedrock : Except String Unit) : HealthResponse :=
  let allHealthy := pg.isOk && osearch.isOk && bedrock.isOk
  { status := if allHealthy then "healthy" else "unhealthy"
    postgresql := pgReport pg
    opensearch := osReport osearch
    aws_bedrock := brReport bedrock
    httpStatus := if allHealthy then 200 else 503 }

-- JSON rendering (json.dumps with default options) -----------------------

/-- Lower-case hex digit. -/
def hexDigitChar (n : Nat) : Char :=
  if n < 10 then Char.ofNat (48 + n) else Char.ofNat (97 + n - 10)

/-- Four lower-case hex digits. -/
def hex4 (n : Nat) : String :=
  String.mk [hexDigitChar (n / 4096 % 16), hexDigitChar (n / 256 % 16),
             hexDigitChar (n / 16 % 16), hexDigitChar (n % 16)]

/-- `json.dumps` escaping of one character (default `ensure_ascii=True`):
printable ASCII passes through, known controls use short escapes, everything
else becomes `\uXXXX` (with surrogate pairs above the BMP). -/
def jsonEscapeChar (c : Char) : String :=
  if c = '"' then "\\\""
  else if c = '\\' then "\\\\"
  else if c = '\n' then "\\n"
  else if c = '\t' then "\\t"
  else if c = '\r' then "\\r"
  else if c = Char.ofNat 8 then "\\b"
  else if c = Char.ofNat 12 then "\\f"
  else if 32 ≤ c.toNat ∧ c.toNat ≤ 126 then String.singleton c
  else if c.toNat < 65536 then "\\u" ++ hex4 c.toNat
  else "\\u" ++ hex4 (55296 + (c.toNat - 65536) / 1024) ++
       "\\u" ++ hex4 (56320 + (c.toNat - 65536) % 1024)

/-- `json.dumps` of a Python `str`. -/
def pyJsonStr (s : String) : String :=
  "\"" ++ String.join (s.data.map jsonEscapeChar) ++ "\""

-- agent query streaming (§C7) --------------------------------------------

/-- Events surfaced by the delegate's workflow stream: `AgentStream` events
carry a token delta; any other event type is skipped by the handler. -/
inductive WorkflowEvent where
  | agentStream (delta : String)
  | other
deriving DecidableEq

/-- The deltas of the `AgentStream` events, in order. -/
def deltasOf (events : List WorkflowEvent) : List String :=
  events.filterMap (fun e => match e with
    | .agentStream d => some d
    | .other => none)

/-- `json.dumps({"type": "token", "content": delta})` as the SSE line
yielded at views.py line 493. -/
def sseTokenEvent (delta : String) : String :=
  "data: \x7b\"type\": \"token\", \"content\": " ++ pyJsonStr delta ++ "\x7d\n\n"

/-- `json.dumps({"type": "done"})` as the SSE line yielded at line 497. -/
def sseDoneEvent : String := "data: \x7b\"type\": \"done\"\x7d\n\n"

/-- The SSE error event of lines 501-523 (`code` is `SERVICE_UNAVAILABLE`
for a `ConnectionError`, `AGENT_EXECUTION_ERROR` otherwise). -/
def sseErrorEvent (code message details : String) : String :=
  "data: \x7b\"type\": \"error\", \"content\": \x7b\"code\": " ++ pyJsonStr code ++
  ", \"message\": " ++ pyJsonStr message ++ ", \"details\": " ++ pyJsonStr details ++
  "\x7d\x7d\n\n"

/-- One run of the delegate's event stream as consumed by
`_handle_streaming_query`: the surfaced events, ending in normal completion,
a `ConnectionError`, or any other exception. -/
inductive StreamRun where
  | completes (events : List WorkflowEvent)
  | connError (events : List WorkflowEvent) (msg : String)
  | otherError (events : List WorkflowEvent) (msg : String)

/-- The `async_event_stream` generator of `_handle_streaming_query`
(views.py lines 474-523): the list of SSE strings yielded. -/
def handleStreamingQuery : StreamRun → List String
  | .completes events => (deltasOf events).map sseTokenEvent ++ [sseDoneEvent]
  | .connError events msg =>
      (deltasOf events).map sseTokenEvent ++
        [sseErrorEvent "SERVICE_UNAVAILABLE" "Unable to connect to required services" msg]
  | .otherError events msg =>
      (deltasOf events).map sseTokenEvent ++
        [sseErrorEvent "AGENT_EXECUTION_ERROR" "Agent execution failed" msg]

-- OpenAI-compatible adapter ----------------------------------------------

/-- A completed delegate run as seen by the adapter: the incremental
`AgentStream` deltas it produced, and the final awaited response text
(`str(response)`). -/
structure DelegateRun where
  deltas : List String
  finalText : String
deriving DecidableEq

/-- `_execute_agent_stream` (views.py lines 836-882): the generator awaits
the full response and yields it as one token — the per-delta
`stream_events` loop at lines 865-868 is commented out in the source, so
`run.deltas` is never consulted. -/
def executeAgentStream (run : DelegateRun) : List String := [run.finalText]

/-- `json.dumps` of one `chat.completion.chunk` (views.py lines 1009-1022)
as an SSE data line. -/
def chunkLine (streamId : String) (created : Nat) (model token : String) : String :=
  "data: \x7b\"id\": " ++ pyJsonStr streamId ++
  ", \"object\": \"chat.completion.chunk\", \"created\": " ++ toString created ++
  ", \"model\": " ++ pyJsonStr model ++
  ", \"choices\": [\x7b\"index\": 0, \"delta\": \x7b\"content\": " ++ pyJsonStr token ++
  "\x7d, \"finish_reason\": null\x7d]\x7d\n\n"

/-- The terminal chunk with `finish_reason: "stop"` (lines 1026-1039). -/
def finalChunkLine (streamId : String) (created : Nat) (model : String) : String :=
  "data: \x7b\"id\": " ++ pyJsonStr streamId ++
  ", \"object\": \"chat.completion.chunk\", \"created\": " ++ toString created ++
  ", \"model\": " ++ pyJsonStr model ++
  ", \"choices\": [\x7b\"index\": 0, \"delta\": \x7b\x7d, \"finish_reason\": \"stop\"\x7d]\x7d\n\n"

/-- The literal OpenAI stream terminator (line 1040). -/
def doneLine : String := "data: [DONE]\n\n"

/-- The OpenAI-vocabulary error object: `{message, type}` plus the optional
keys the adapter sometimes adds (`details` is modelled as its rendered
text). -/
structure OpenAIError where
  message : String
  type : String
  param : Option String := none
  code : Option String := none
  details : Option String := none
deriving DecidableEq

/-- `json.dumps({"error": {...}})` of an error object, keys in the
insertion order of `_format_openai_error`. -/
def renderOpenAIError (e : OpenAIError) : String :=
  "\x7b\"error\": \x7b\"message\": " ++ pyJsonStr e.message ++
  ", \"type\": " ++ pyJsonStr e.type ++
  (match e.param with | some p => ", \"param\": " ++ pyJsonStr p | none => "") ++
  (match e.code with | some c => ", \"code\": " ++ pyJsonStr c | none => "") ++
  (match e.details with | some d => ", \"details\": " ++ pyJsonStr d | none => "") ++
  "\x7d\x7d"

/-- The failure paths of the OpenAI-compatible adapter
(`openai_chat_completions` and its two completion handlers), each with the
exception text it carries. -/
inductive AdapterFailure where
  | validation (errs : String)
  | messageProcessing (msg : String)
  | runtimeUnavailable (msg : String)
  | connection (msg : String)
  | execution (msg : String)
  | formatting (msg : String)
  | streamingRuntime (msg : String)
  | streamingOther (msg : String)
deriving DecidableEq

/-- The error object produced on each failure path (views.py lines 944-950,
974-979, 1044-1065, 1094-1121, 1139-1146). -/
def adapterErrorBody : AdapterFailure → OpenAIError
  | .validation errs =>
      { message := "Invalid request data", type := "invalid_request_error",
        code := some "validation_error", details := some errs }
  | .messageProcessing m =>
      { message := "Failed to process messages: " ++ m,
        type := "invalid_request_error", code := some "message_processing_error" }
  | .runtimeUnavailable m =>
      { message := "Agent service is not available",
        type := "service_unavailable_error", code := some "agent_unavailable",
        details := some m }
  | .connection m =>
      { message := "Unable to connect to required services",
        type := "service_unavailable_error", code := some "service_connection_error",
        details := some m }
  | .execution m =>
      { message := "Agent execution failed: " ++ m, type := "server_error",
        code := some "agent_execution_error" }
  | .formatting m =>
      { message := "Failed to format response: " ++ m, type := "server_error",
        code := some "response_formatting_error" }
  | .streamingRuntime _ =>
      { message := "Agent service is not available",
        type := "service_unavailable_error", code := some "agent_unavailable" }
  | .streamingOther m => { message := m, type := "internal_error" }

/-- The HTTP status set on the non-streaming failure paths (a streaming
body keeps the 200 of the already-started response). -/
def adapterErrorStatus : AdapterFailure → Nat
  | .validation _ => 400
  | .messageProcessing _ => 400
  | .runtimeUnavailable _ => 503
  | .connection _ => 503
  | .execution _ => 500
  | .formatting _ => 500
  | .streamingRuntime _ => 200
  | .streamingOther _ => 200

/-- Outcome of pulling the token stream inside
`_handle_streaming_chat_completion`: a completed run, a `RuntimeError`
(agent not initialized), or any other exception. -/
inductive ChatStreamOutcome where
  | ok (run : DelegateRun)
  | runtimeError (msg : String)
  | otherError (msg : String)

/-- The `stream_events` generator of `_handle_streaming_chat_completion`
(views.py lines 1000-1065): the list of SSE strings yielded. -/
def handleStreamingChatCompletion (streamId : String) (created : Nat) (model : String) :
    ChatStreamOutcome → List String
  | .ok run =>
      (executeAgentStream run).map (chunkLine streamId created model) ++
        [finalChunkLine streamId created model, doneLine]
  | .runtimeError m =>
      ["data: " ++ renderOpenAIError (adapterErrorBody (.streamingRuntime m)) ++ "\n\n",
       doneLine]
  | .otherError m =>
      ["data: " ++ renderOpenAIError (adapterErrorBody (.streamingOther m)) ++ "\n\n",
       doneLine]

-- OpenAI message folding (§C5) -------------------------------------------

/-- Roles accepted by `OpenAIMessageSerializer`. -/
inductive Role where
  | system
  | user
  | assistant
deriving DecidableEq

/-- One OpenAI chat message. -/
structure ChatMessage where
  role : Role
  content : String
deriving DecidableEq

/-- Python `\s` on ASCII text. -/
def isPySpace (c : Char) : Bool :=
  c == ' ' || c == '\t' || c == '\n' || c == '\r' ||
  c == Char.ofNat 11 || c == Char.ofNat 12

/-- Python `str.strip()`. -/
def pyStrip (s : String) : String :=
  String.mk (((s.data.dropWhile isPySpace).reverse.dropWhile isPySpace).reverse)

/-- The character class `[+\d\s-]` of the phone-token regex. -/
def isPhoneTokenChar (c : Char) : Bool :=
  c == '+' || c.isDigit || isPySpace c || c == '-'

/-- Match `\[phone:\s*([+\d\s-]+)\]` at the head of `cs`: the literal
`[phone:` followed by a non-empty maximal run of class characters and `]`.
Returns the run (the match's group up to leading-whitespace distribution,
which `strip()` erases) and the remainder after `]`. -/
def phoneMatchAt (cs : List Char) : Option (List Char × List Char) :=
  if "[phone:".data.isPrefixOf cs then
    let rest := cs.drop 7
    let r := rest.takeWhile isPhoneTokenChar
    if r.isEmpty then none
    else
      match rest.drop r.length with
      | ']' :: tail => some (r, tail)
      | _ => none
  else none

/-- `re.search`: the group of the first match, scanning left to right. -/
def searchPhoneGroup : List Char → Option (List Char)
  | [] => none
  | c :: cs =>
      match phoneMatchAt (c :: cs) with
      | some (r, _) => some r
      | none => searchPhoneGroup cs

/-- `re.sub(pattern, '', content)`: drop every match.  `fuel` bounds the
recursion; each match consumes at least nine characters, so the initial
fuel of `cs.length` never runs out. -/
def removePhoneTagsAux : Nat → List Char → List Char
  | 0, cs => cs
  | _ + 1, [] => []
  | fuel + 1, c :: cs =>
      match phoneMatchAt (c :: cs) with
      | some (_, tail) => removePhoneTagsAux fuel tail
      | none => c :: removePhoneTagsAux fuel cs

/-- `re.sub(r'\[phone:\s*[+\d\s-]+\]', '', content)`. -/
def removePhoneTags (cs : List Char) : List Char :=
  removePhoneTagsAux cs.length cs

/-- Accumulator of the message loop in `_extract_query_and_context`. -/
structure ExtractState where
  systemMessages : List String
  history : List String
  userMessage : String
  phoneNumber : String
deriving DecidableEq

/-- One iteration of the loop at views.py lines 680-695. -/
def processMessage (st : ExtractState) (msg : ChatMessage) : ExtractState :=
  match msg.role with
  | .system => { st with systemMessages := st.systemMessages ++ [msg.content] }
  | .user =>
      match searchPhoneGroup msg.content.data with
      | some r =>
          { st with
            phoneNumber := pyStrip (String.mk r),
            userMessage := pyStrip (String.mk (removePhoneTags msg.content.data)) }
      | none => { st with userMessage := msg.content }
  | .assistant => { st with history := st.history ++ ["Assistant: " ++ msg.content] }

/-- `_extract_query_and_context` (views.py lines 662-710): fold the
messages, then join the query parts with blank lines. -/
def extractQueryAndContext (messages : List ChatMessage) : String × String :=
  let st := messages.foldl processMessage ⟨[], [], "", ""⟩
  let queryParts :=
    (if st.systemMessages.isEmpty then []
     else ["System Instructions: " ++ String.intercalate " " st.systemMessages]) ++
    (if st.history.isEmpty then []
     else ["Conversation History:\n" ++ String.intercalate "\n" st.history]) ++
    ["User: " ++ st.userMessage]
  (String.intercalate "\n\n" queryParts, st.phoneNumber)

/-- The prompt actually passed to `agent.run` by `_execute_agent_sync` and
`_execute_agent_stream` (views.py lines 817-819 and 853-855): a truthy
phone number is re-appended as a bracketed annotation. -/
def agentPrompt (query_text phone_number : String) : String :=
  if phone_number == "" then query_text
  else query_text ++ "\n\n[User phone number: " ++ phone_number ++ "]"

-- upload validation (§C9) ------------------------------------------------

/-- An uploaded file: only the name and size are consulted by validation;
the raw bytes are opaque. -/
structure UploadedFile where
  name : String
  size : Nat
  content : List Nat
deriving DecidableEq

/-- `os.path.splitext(file_name)[1]` (posixpath): the extension starts at
the last dot of the basename, unless only leading dots precede it. -/
def pySplitextExt (name : String) : String :=
  let base := (name.data.reverse.takeWhile (fun c => c != '/')).reverse
  let afterRev := base.reverse.takeWhile (fun c => c != '.')
  if afterRev.length = base.length then ""
  else
    let stem := base.take (base.length - afterRev.length - 1)
    if stem.any (fun c => c != '.') then String.mk ('.' :: afterRev.reverse) else ""

/-- Python `str.lower()` (ASCII). -/
def pyLower (s : String) : String := String.mk (s.data.map Char.toLower)

/-- `DocumentUploadSerializer.SUPPORTED_EXTENSIONS`. -/
def SUPPORTED_EXTENSIONS : List String := [".pdf", ".txt", ".docx"]

/-- `DocumentUploadSerializer.MAX_FILE_SIZE` (10 MB). -/
def MAX_FILE_SIZE : Nat := 10 * 1024 * 1024

/-- `DocumentUploadSerializer.validate_file` (serializers.py lines 79-112). -/
def validateFile (f : UploadedFile) : Except String UploadedFile :=
  let fileExt := pyLower (pySplitextExt f.name)
  if ¬ SUPPORTED_EXTENSIONS.contains fileExt then
    Except.error ("Unsupported file format '" ++ fileExt ++
      "'. Supported formats: .pdf, .txt, .docx")
  else if f.size > MAX_FILE_SIZE then
    Except.error "File size exceeds maximum allowed size of 10.0 MB"
  else Except.ok f

/-- The validation gate of `upload_document` (views.py lines 139-152): an
invalid file short-circuits to HTTP 400 with code `VALIDATION_ERROR`,
otherwise processing continues with the validated file. -/
def uploadDocumentGate (f : UploadedFile) : Except (Nat × String) UploadedFile :=
  match validateFile f with
  | .error _ => Except.error (400, "VALIDATION_ERROR")
  | .ok v => Except.ok v

-- helper lemmas ---------------------------------------------------------

theorem sapp_assoc (a b c : String) : a ++ b ++ c = a ++ (b ++ c) := by
  apply String.ext
  simp [String.data_append, List.append_assoc]

theorem sapp_empty (a : String) : a ++ "" = a := by
  apply String.ext
  simp [String.data_append]

theorem containsSub_intro (pre sub post s : String)
    (h : s = pre ++ sub ++ post) : ContainsSub s sub := ⟨pre, post, h⟩

-- claim theorems --------------------------------------------------------

/-- C1: blocking an already-blocked card (or enabling an already-active one)
is a no-op returning an "already blocked"/"already active" message with the
card's last four characters and username, leaving the table (hence
`updated_at`) unchanged; blocking an active card (or enabling a blocked one)
writes the row back with the requested `card_status` and `updated_at := now`
(strictly larger than the old `updated_at` whenever the clock has advanced),
and the success message carries the last four characters, the username, and
the rendered `updated_at` timestamp. -/
theorem c1_status_transitions
    (store : List CardHolder) (now : Nat) (p : String) (c : CardHolder)
    (hfind : getByPhone store (normalizePhone p) = some c)
    (hclock : c.updated_at < now) :
    (c.card_status = "blocked" →
      (blockCreditCard store now p).2 = store ∧
      ContainsSub (blockCreditCard store now p).1 "already blocked" ∧
      ContainsSub (blockCreditCard store now p).1 (pyLast4 c.credit_card_number) ∧
      ContainsSub (blockCreditCard store now p).1 c.username) ∧
    (c.card_status = "active" →
      (blockCreditCard store now p).2 =
        saveRow store { c with card_status := "blocked", updated_at := now } ∧
      c.updated_at < now ∧
      ContainsSub (blockCreditCard store now p).1 (pyLast4 c.credit_card_number) ∧
      ContainsSub (blockCreditCard store now p).1 c.username ∧
      ContainsSub (blockCreditCard store now p).1 (isoformat now)) ∧
    (c.card_status = "active" →
      (enableCreditCard store now p).2 = store ∧
      ContainsSub (enableCreditCard store now p).1 "already active" ∧
      ContainsSub (enableCreditCard store now p).1 (pyLast4 c.credit_card_number) ∧
      ContainsSub (enableCreditCard store now p).1 c.username) ∧
    (c.card_status = "blocked" →
      (enableCreditCard store now p).2 =
        saveRow store { c with card_status := "active", updated_at := now } ∧
      c.updated_at < now ∧
      ContainsSub (enableCreditCard store now p).1 (pyLast4 c.credit_card_number) ∧
      ContainsSub (enableCreditCard store now p).1 c.username ∧
      ContainsSub (enableCreditCard store now p).1 (isoformat now)) := by
  refine ⟨fun hst => ?_, fun hst => ?_, fun hst => ?_, fun hst => ?_⟩
  · have hb : blockCreditCard store now p =
        ("Credit card for phone number " ++ normalizePhone p ++
           " is already blocked.\n" ++
         "Card ending in: " ++ pyLast4 c.credit_card_number ++ "\n" ++
         "Username: " ++ c.username, store) := by
      unfold blockCreditCard
      rw [hfind]
      simp [hst]
    refine ⟨by rw [hb], ?_, ?_, ?_⟩
    · refine containsSub_intro
        ("Credit card for phone number " ++ normalizePhone p ++ " is ")
        "already blocked"
        (".\n" ++ "Card ending in: " ++ pyLast4 c.credit_card_number ++ "\n" ++
          "Username: " ++ c.username) _ ?_
      rw [hb,
        (by decide : (" is already blocked.\n" : String) =
          " is " ++ "already blocked" ++ ".\n")]
      simp only [sapp_assoc]
    · refine containsSub_intro
        ("Credit card for phone number " ++ normalizePhone p ++
          " is already blocked.\n" ++ "Card ending in: ")
        (pyLast4 c.credit_card_number)
        ("\n" ++ "Username: " ++ c.username) _ ?_
      rw [hb]; simp only [sapp_assoc]
    · refine containsSub_intro
        ("Credit card for phone number " ++ normalizePhone p ++
          " is already blocked.\n" ++ "Card ending in: " ++
          pyLast4 c.credit_card_number ++ "\n" ++ "Username: ")
        c.username "" _ ?_
      rw [hb]; simp only [sapp_assoc, sapp_empty]
  · have hb : blockCreditCard store now p =
        ("Successfully blocked credit card for phone number " ++
           normalizePhone p ++ ".\n" ++
         "Card ending in: " ++ pyLast4 c.credit_card_number ++ "\n" ++
         "Username: " ++ c.username ++ "\n" ++
         "Blocked at: " ++ isoformat now,
         saveRow store { c with card_status := "blocked", updated_at := now }) := by
      unfold blockCreditCard
      rw [hfind]
      simp [hst]
    refine ⟨by rw [hb], hclock, ?_, ?_, ?_⟩
    · refine containsSub_intro
        ("Successfully blocked credit card for phone number " ++
          normalizePhone p ++ ".\n" ++ "Card ending in: ")
        (pyLast4 c.credit_card_number)
        ("\n" ++ "Username: " ++ c.username ++ "\n" ++ "Blocked at: " ++
          isoformat now) _ ?_
      rw [hb]; simp only [sapp_assoc]
    · refine containsSub_intro
        ("Successfully blocked credit card for phone number " ++
          normalizePhone p ++ ".\n" ++ "Card ending in: " ++
          pyLast4 c.credit_card_number ++ "\n" ++ "Username: ")
        c.username
        ("\n" ++ "Blocked at: " ++ isoformat now) _ ?_
      rw [hb]; simp only [sapp_assoc]
    · refine containsSub_intro
        ("Successfully blocked credit card for phone number " ++
          normalizePhone p ++ ".\n" ++ "Card ending in: " ++
          pyLast4 c.credit_card_number ++ "\n" ++ "Username: " ++
          c.username ++ "\n" ++ "Blocked at: ")
        (isoformat now) "" _ ?_
      rw [hb]; simp only [sapp_assoc, sapp_empty]
  · have hb : enableCreditCard store now p =
        ("Credit card for phone number " ++ normalizePhone p ++
           " is already active.\n" ++
         "Card ending in: " ++ pyLast4 c.credit_card_number ++ "\n" ++
         "Username: " ++ c.username, store) := by
      unfold enableCreditCard
      rw [hfind]
      simp [hst]
    refine ⟨by rw [hb], ?_, ?_, ?_⟩
    · refine containsSub_intro
        ("Credit card for phone number " ++ normalizePhone p ++ " is ")
        "already active"
        (".\n" ++ "Card ending in: " ++ pyLast4 c.credit_card_number ++ "\n" ++
          "Username: " ++ c.username) _ ?_
      rw [hb,
        (by decide : (" is already active.\n" : String) =
          " is " ++ "already active" ++ ".\n")]
      simp only [sapp_assoc]
    · refine containsSub_intro
        ("Credit card for phone number " ++ normalizePhone p ++
          " is already active.\n" ++ "Card ending in: ")
        (pyLast4 c.credit_card_number)
        ("\n" ++ "Username: " ++ c.username) _ ?_
      rw [hb]; simp only [sapp_assoc]
    · refine containsSub_intro
        ("Credit card for phone number " ++ normalizePhone p ++
          " is already active.\n" ++ "Card ending in: " ++
          pyLast4 c.credit_card_number ++ "\n" ++ "Username: ")
        c.username "" _ ?_
      rw [hb]; simp only [sapp_assoc, sapp_empty]
  · have hb : enableCreditCard store now p =
        ("Successfully enabled credit card for phone number " ++
           normalizePhone p ++ ".\n" ++
         "Card ending in: " ++ pyLast4 c.credit_card_number ++ "\n" ++
         "Username: " ++ c.username ++ "\n" ++
         "Enabled at: " ++ isoformat now,
         saveRow store { c with card_status := "active", updated_at := now }) := by
      unfold enableCreditCard
      rw [hfind]
      simp [hst]
    refine ⟨by rw [hb], hclock, ?_, ?_, ?_⟩
    · refine containsSub_intro
        ("Successfully enabled credit card for phone number " ++
          normalizePhone p ++ ".\n" ++ "Card ending in: ")
        (pyLast4 c.credit_card_number)
        ("\n" ++ "Username: " ++ c.username ++ "\n" ++ "Enabled at: " ++
          isoformat now) _ ?_
      rw [hb]; simp only [sapp_assoc]
    · refine containsSub_intro
        ("Successfully enabled credit card for phone number " ++
          normalizePhone p ++ ".\n" ++ "Card ending in: " ++
          pyLast4 c.credit_card_number ++ "\n" ++ "Username: ")
        c.username
        ("\n" ++ "Enabled at: " ++ isoformat now) _ ?_
      rw [hb]; simp only [sapp_assoc]
    · refine containsSub_intro
        ("Successfully enabled credit card for phone number " ++
          normalizePhone p ++ ".\n" ++ "Card ending in: " ++
          pyLast4 c.credit_card_number ++ "\n" ++ "Username: " ++
          c.username ++ "\n" ++ "Enabled at: ")
        (isoformat now) "" _ ?_
      rw [hb]; simp only [sapp_assoc, sapp_empty]

/-- Concrete instantiation of C1: blocking the active fixture account with
the un-prefixed phone string mutates the stored row and reports the
timestamp. -/
theorem c1_status_transitions_witness :
    getByPhone [wAcct] (normalizePhone "15550100366") = some wAcct ∧
    wAcct.updated_at < 10 ∧
    ((blockCreditCard [wAcct] 10 "15550100366").2 =
       saveRow [wAcct] { wAcct with card_status := "blocked", updated_at := 10 } ∧
     wAcct.updated_at < 10 ∧
     ContainsSub (blockCreditCard [wAcct] 10 "15550100366").1
       (pyLast4 wAcct.credit_card_number) ∧
     ContainsSub (blockCreditCard [wAcct] 10 "15550100366").1 wAcct.username ∧
     ContainsSub (blockCreditCard [wAcct] 10 "15550100366").1 (isoformat 10)) :=
  ⟨by decide, by decide,
   (c1_status_transitions [wAcct] 10 "15550100366" wAcct (by decide) (by decide)).2.1 rfl⟩

/-- C2: the tool functions never raise.  The catch-all arms turn any raised
exception into an in-band string with the documented prefix, the empty-result
search returns the fixed sentinel, and the card tools leave the table
untouched when swallowing an exception. -/
theorem c2_tools_never_raise
    (retrieve : String → Except String (List SourceNode))
    (store : List CardHolder) (now : Nat) (q p e : String) :
    (retrieve q = Except.error e →
      searchDocuments retrieve q = "Error searching documents: " ++ e) ∧
    (retrieve q = Except.ok [] →
      searchDocuments retrieve q = "No relevant documents found for your query.") ∧
    blockCreditCardExc (some e) store now p =
      ("Error blocking credit card: " ++ e, store) ∧
    enableCreditCardExc (some e) store now p =
      ("Error enabling credit card: " ++ e, store) := by
  refine ⟨fun h => ?_, fun h => ?_, rfl, rfl⟩
  · unfold searchDocuments; rw [h]
  · unfold searchDocuments; rw [h]; rfl

/-- Concrete instantiation of C2 on a faulting retriever, an empty result
set and a faulting database layer. -/
theorem c2_tools_never_raise_witness :
    searchDocuments (fun _ => Except.error "boom") "q" =
      "Error searching documents: " ++ "boom" ∧
    searchDocuments (fun _ => Except.ok []) "q" =
      "No relevant documents found for your query." ∧
    blockCreditCardExc (some "db down") [] 0 "555" =
      ("Error blocking credit card: " ++ "db down", []) ∧
    enableCreditCardExc (some "db down") [] 0 "555" =
      ("Error enabling credit card: " ++ "db down", []) :=
  ⟨(c2_tools_never_raise (fun _ => Except.error "boom") [] 0 "q" "555" "boom").1 rfl,
   (c2_tools_never_raise (fun _ => Except.ok []) [] 0 "q" "555" "x").2.1 rfl,
   (c2_tools_never_raise (fun _ => Except.error "e") [] 0 "q" "555" "db down").2.2.1,
   (c2_tools_never_raise (fun _ => Except.error "e") [] 0 "q" "555" "db down").2.2.2⟩

/-- C3: for a phone number absent from the table, both card tools return the
"No cardholder found" message carrying the normalized phone — which contains
the caller's string verbatim — and leave the table unchanged (no row is
created). -/
theorem c3_not_found
    (store : List CardHolder) (now : Nat) (p : String)
    (hnone : getByPhone store (normalizePhone p) = none) :
    blockCreditCard store now p =
      ("No cardholder found with phone number: " ++ normalizePhone p, store) ∧
    enableCreditCard store now p =
      ("No cardholder found with phone number: " ++ normalizePhone p, store) ∧
    ContainsSub ("No cardholder found with phone number: " ++ normalizePhone p) p := by
  refine ⟨?_, ?_, ?_⟩
  · unfold blockCreditCard; rw [hnone]
  · unfold enableCreditCard; rw [hnone]
  · unfold normalizePhone
    cases h : startsWithPlus p with
    | true =>
        simp only [h, if_true]
        exact containsSub_intro "No cardholder found with phone number: " p "" _
          (by simp only [sapp_assoc, sapp_empty])
    | false =>
        simp only [h, Bool.false_eq_true, if_false]
        exact containsSub_intro ("No cardholder found with phone number: " ++ "+") p "" _
          (by simp only [sapp_assoc, sapp_empty])

/-- Concrete instantiation of C3 on an empty table. -/
theorem c3_not_found_witness :
    blockCreditCard [] 7 "5550100999" =
      ("No cardholder found with phone number: " ++ normalizePhone "5550100999", []) ∧
    enableCreditCard [] 7 "5550100999" =
      ("No cardholder found with phone number: " ++ normalizePhone "5550100999", []) ∧
    ContainsSub ("No cardholder found with phone number: " ++ normalizePhone "5550100999")
      "5550100999" :=
  c3_not_found [] 7 "5550100999" rfl

/-- C10: when the card tools take the not-found branch or the
already-in-requested-status branch they perform no write: the resulting
table is exactly the input table, every row and field included. -/
theorem c10_noop_frame
    (store : List CardHolder) (now : Nat) (p : String) :
    (getByPhone store (normalizePhone p) = none →
      (blockCreditCard store now p).2 = store ∧
      (enableCreditCard store now p).2 = store) ∧
    (∀ c, getByPhone store (normalizePhone p) = some c →
      (c.card_status = "blocked" → (blockCreditCard store now p).2 = store) ∧
      (c.card_status = "active" → (enableCreditCard store now p).2 = store)) := by
  constructor
  · intro h
    constructor
    · unfold blockCreditCard; rw [h]
    · unfold enableCreditCard; rw [h]
  · intro c hc
    constructor
    · intro hst; unfold blockCreditCard; rw [hc]; simp [hst]
    · intro hst; unfold enableCreditCard; rw [hc]; simp [hst]

/-- Concrete instantiation of C10 on the not-found branch and on both
already-in-status branches. -/
theorem c10_noop_frame_witness :
    (blockCreditCard [] 3 "555").2 = [] ∧
    (blockCreditCard [wAcctBlocked] 9 "15550100366").2 = [wAcctBlocked] ∧
    (enableCreditCard [wAcct] 9 "15550100366").2 = [wAcct] :=
  ⟨((c10_noop_frame [] 3 "555").1 (by decide)).1,
   ((c10_noop_frame [wAcctBlocked] 9 "15550100366").2 wAcctBlocked (by decide)).1 rfl,
   ((c10_noop_frame [wAcct] 9 "15550100366").2 wAcct (by decide)).2 rfl⟩

theorem sintercalate_one (s a : String) : String.intercalate s [a] = a := rfl

theorem append_ne_of_get (A B C : String) (n : Nat) (hA : n < A.data.length)
    (hne : A.data[n]? ≠ C.data[n]?) : A ++ B ≠ C := by
  intro h
  have hd := congrArg (fun s => s.data[n]?) h
  simp only [String.data_append] at hd
  rw [List.getElem?_append_left hA] at hd
  exact hne hd

theorem sseTokenEvent_ne_done (d : String) : sseTokenEvent d ≠ sseDoneEvent := by
  have h : sseTokenEvent d =
      "data: \x7b\"type\": \"token\", \"content\": " ++ (pyJsonStr d ++ "\x7d\n\n") := by
    simp only [sseTokenEvent, sapp_assoc]
  rw [h]
  exact append_ne_of_get _ _ _ 16 (by decide) (by decide)

theorem chunkLine_ne_done (i : String) (c : Nat) (m t : String) :
    chunkLine i c m t ≠ sseDoneEvent := by
  have h : chunkLine i c m t = "data: \x7b\"id\": " ++
      (pyJsonStr i ++ (", \"object\": \"chat.completion.chunk\", \"created\": " ++
        (toString c ++ (", \"model\": " ++ (pyJsonStr m ++
          (", \"choices\": [\x7b\"index\": 0, \"delta\": \x7b\"content\": " ++
            (pyJsonStr t ++ "\x7d, \"finish_reason\": null\x7d]\x7d\n\n"))))))) := by
    simp only [chunkLine, sapp_assoc]
  rw [h]
  exact append_ne_of_get _ _ _ 8 (by decide) (by decide)

theorem finalChunkLine_ne_done (i : String) (c : Nat) (m : String) :
    finalChunkLine i c m ≠ sseDoneEvent := by
  have h : finalChunkLine i c m = "data: \x7b\"id\": " ++
      (pyJsonStr i ++ (", \"object\": \"chat.completion.chunk\", \"created\": " ++
        (toString c ++ (", \"model\": " ++ (pyJsonStr m ++
          ", \"choices\": [\x7b\"index\": 0, \"delta\": \x7b\x7d, \"finish_reason\": \"stop\"\x7d]\x7d\n\n"))))) := by
    simp only [finalChunkLine, sapp_assoc]
  rw [h]
  exact append_ne_of_get _ _ _ 8 (by decide) (by decide)

theorem doneLine_ne_sseDone : doneLine ≠ sseDoneEvent := by decide

/-- C6: the health probe serves HTTP 503 with overall status "unhealthy"
exactly when at least one of the three checks failed, and HTTP 200 with
"healthy" exactly when all three passed; each service's entry is the report
of its own check alone (so all three always appear, with their own
status/message, regardless of the other checks' outcomes). -/
theorem c6_health_check (pg osearch bedrock : Except String Unit) :
    (((healthCheck pg osearch bedrock).httpStatus = 503 ∧
      (healthCheck pg osearch bedrock).status = "unhealthy") ↔
      (pg.isOk = false ∨ osearch.isOk = false ∨ bedrock.isOk = false)) ∧
    (((healthCheck pg osearch bedrock).httpStatus = 200 ∧
      (healthCheck pg osearch bedrock).status = "healthy") ↔
      (pg.isOk = true ∧ osearch.isOk = true ∧ bedrock.isOk = true)) ∧
    (healthCheck pg osearch bedrock).postgresql = pgReport pg ∧
    (healthCheck pg osearch bedrock).opensearch = osReport osearch ∧
    (healthCheck pg osearch bedrock).aws_bedrock = brReport bedrock := by
  have h1 : ("healthy" : String) ≠ "unhealthy" := by decide
  have h2 : ("unhealthy" : String) ≠ "healthy" := by decide
  refine ⟨?_, ?_, rfl, rfl, rfl⟩ <;>
    cases pg <;> cases osearch <;> cases bedrock <;>
      simp [healthCheck, Except.isOk, Except.toBool, h1, h2]

/-- C7: on a normally completing streaming agent query, the generator
yields one `data: {"type": "token", "content": d}` SSE event per
`AgentStream` delta, in delta order, followed by exactly one
`data: {"type": "done"}` event. -/
theorem c7_streaming_query_events (ds : List String) (events : List WorkflowEvent)
    (h : deltasOf events = ds) :
    handleStreamingQuery (.completes events) = ds.map sseTokenEvent ++ [sseDoneEvent] ∧
    (handleStreamingQuery (.completes events)).count sseDoneEvent = 1 := by
  subst h
  refine ⟨rfl, ?_⟩
  have hmap : ((deltasOf events).map sseTokenEvent).count sseDoneEvent = 0 :=
    List.count_eq_zero.2 (fun hmem => by
      obtain ⟨d, _, hd⟩ := List.mem_map.1 hmem
      exact sseTokenEvent_ne_done d hd)
  show ((deltasOf events).map sseTokenEvent ++ [sseDoneEvent]).count sseDoneEvent = 1
  rw [List.count_append, hmap]
  simp

/-- Concrete instantiation of C7 on the spec's example token stream. -/
theorem c7_streaming_query_events_witness :
    handleStreamingQuery (.completes
        [.agentStream "Based", .agentStream " on", .agentStream " the"]) =
      ["Based", " on", " the"].map sseTokenEvent ++ [sseDoneEvent] ∧
    (handleStreamingQuery (.completes
        [.agentStream "Based", .agentStream " on", .agentStream " the"])).count
      sseDoneEvent = 1 :=
  c7_streaming_query_events ["Based", " on", " the"]
    [.agentStream "Based", .agentStream " on", .agentStream " the"] rfl

/-- C4 as stated is false: a delegate run with two deltas does not produce
one `chat.completion.chunk` per delta — `_execute_agent_stream` yields the
full response once, so the body has a single content chunk. -/
theorem c4_counterexample :
    handleStreamingChatCompletion "chatcmpl-0" 0 "m"
        (.ok ⟨["We", " offer"], "We offer"⟩) ≠
      ["We", " offer"].map (chunkLine "chatcmpl-0" 0 "m") ++
        [finalChunkLine "chatcmpl-0" 0 "m", doneLine] := by
  intro h
  have hlen := congrArg List.length h
  simp only [handleStreamingChatCompletion, executeAgentStream, List.map_cons,
    List.map_nil, List.length_append, List.length_map, List.length_cons,
    List.length_nil] at hlen
  omega

/-- C4 amended: the streaming OpenAI adapter emits a single
`chat.completion.chunk` carrying the full response text (the per-delta loop
is disabled in the source), then the terminal `finish_reason: "stop"`
chunk, then the literal `data: [DONE]` line; the agent-query-style JSON
`done` marker never appears in the body. -/
theorem c4_streaming_chat_chunks (streamId model : String) (created : Nat)
    (run : DelegateRun) :
    handleStreamingChatCompletion streamId created model (.ok run) =
      [chunkLine streamId created model run.finalText,
       finalChunkLine streamId created model, doneLine] ∧
    sseDoneEvent ∉ handleStreamingChatCompletion streamId created model (.ok run) := by
  refine ⟨rfl, ?_⟩
  intro hmem
  simp only [handleStreamingChatCompletion, executeAgentStream, List.map_cons,
    List.map_nil, List.cons_append, List.nil_append, List.mem_cons,
    List.not_mem_nil, or_false] at hmem
  rcases hmem with h | h | h
  · exact chunkLine_ne_done _ _ _ _ h.symm
  · exact finalChunkLine_ne_done _ _ _ h.symm
  · exact doneLine_ne_sseDone h.symm

/-- C5 as stated is false at the spec's own example: the token is extracted
and stripped from the assembled query, but `_execute_agent_sync` re-appends
the phone number, which therefore appears literally in the forwarded
prompt. -/
theorem c5_counterexample :
    extractQueryAndContext [⟨Role.user, "Hi [phone: +1234567890]"⟩] =
      ("User: Hi", "+1234567890") ∧
    ContainsSub (agentPrompt "User: Hi" "+1234567890") "+1234567890" :=
  ⟨by decide,
   containsSub_intro ("User: Hi" ++ "\n\n[User phone number: ") "+1234567890" "]" _
     (by decide)⟩

/-- C5 amended: the adapter extracts the `[phone: ...]` token from the last
user message (stripping every occurrence from the content used in the
assembled query) and uses it as the routing phone number; the executors
then re-append it as a `[User phone number: ...]` annotation, so the
extracted number does appear literally in the prompt forwarded to the
delegate. -/
theorem c5_phone_extraction (msgs : List ChatMessage) :
    (∀ q p, extractQueryAndContext msgs = (q, p) → p ≠ "" →
      agentPrompt q p = q ++ "\n\n[User phone number: " ++ p ++ "]" ∧
      ContainsSub (agentPrompt q p) p) ∧
    (∀ u r, msgs = [⟨Role.user, u⟩] → searchPhoneGroup u.data = some r →
      extractQueryAndContext msgs =
        ("User: " ++ pyStrip (String.mk (removePhoneTags u.data)),
         pyStrip (String.mk r))) := by
  constructor
  · intro q p _ hp
    have hb : (p == "") = false := beq_eq_false_iff_ne.2 hp
    constructor
    · simp [agentPrompt, hb]
    · exact containsSub_intro (q ++ "\n\n[User phone number: ") p "]" _
        (by simp [agentPrompt, hb, sapp_assoc])
  · intro u r hm hs
    subst hm
    simp [extractQueryAndContext, processMessage, hs, sintercalate_one]

/-- Concrete instantiation of C5 (amended) at the spec's example message. -/
theorem c5_phone_extraction_witness :
    (agentPrompt "User: Hi" "+1234567890" =
       "User: Hi" ++ "\n\n[User phone number: " ++ "+1234567890" ++ "]" ∧
     ContainsSub (agentPrompt "User: Hi" "+1234567890") "+1234567890") ∧
    extractQueryAndContext [⟨Role.user, "Hi [phone: +1234567890]"⟩] =
      ("User: " ++
         pyStrip (String.mk (removePhoneTags ("Hi [phone: +1234567890]").data)),
       pyStrip (String.mk (" +1234567890").data)) :=
  ⟨(c5_phone_extraction [⟨Role.user, "Hi [phone: +1234567890]"⟩]).1
     "User: Hi" "+1234567890" (by decide) (by decide),
   (c5_phone_extraction [⟨Role.user, "Hi [phone: +1234567890]"⟩]).2
     "Hi [phone: +1234567890]" (" +1234567890").data rfl (by decide)⟩

/-- C8 as stated is false: the streaming generic-failure path emits an
error object whose `type` is "internal_error", outside the claimed
three-value vocabulary. -/
theorem c8_counterexample :
    (adapterErrorBody (.streamingOther "boom")).type ≠ "invalid_request_error" ∧
    (adapterErrorBody (.streamingOther "boom")).type ≠ "service_unavailable_error" ∧
    (adapterErrorBody (.streamingOther "boom")).type ≠ "server_error" := by
  decide

/-- C8 amended: every adapter error body is a `{message, type}` object with
optional `param`/`code`/`details` keys, and its `type` is
invalid_request_error, service_unavailable_error, or server_error on every
path except the streaming generic-failure path, which alone uses
"internal_error". -/
theorem c8_error_vocabulary (f : AdapterFailure) :
    ((adapterErrorBody f).type = "invalid_request_error" ∨
     (adapterErrorBody f).type = "service_unavailable_error" ∨
     (adapterErrorBody f).type = "server_error" ∨
     (adapterErrorBody f).type = "internal_error") ∧
    ((adapterErrorBody f).type = "internal_error" ↔
      ∃ m, f = AdapterFailure.streamingOther m) := by
  cases f <;> simp [adapterErrorBody]

/-- C9: an uploaded file whose name's extension, lower-cased, is not one of
.pdf/.txt/.docx is rejected by the upload endpoint with HTTP 400 and error
code VALIDATION_ERROR, whatever its size and content. -/
theorem c9_bad_extension_rejected (f : UploadedFile)
    (h : pyLower (pySplitextExt f.name) ∉ SUPPORTED_EXTENSIONS) :
    uploadDocumentGate f = Except.error (400, "VALIDATION_ERROR") := by
  unfold uploadDocumentGate validateFile
  simp [h]

/-- Concrete instantiation of C9 on an `.exe` upload. -/
theorem c9_bad_extension_rejected_witness :
    uploadDocumentGate ⟨"report.exe", 123, [37, 80]⟩ =
      Except.error (400, "VALIDATION_ERROR") :=
  c9_bad_extension_rejected ⟨"report.exe", 123, [37, 80]⟩ (by decide)
